import Mathlib

/-!
Verification of the `check_nif` utility (`src/main.rs`).

The program has two independent components:

* `check_nif_status` — fetches an HTML page for a candidate NIF and
  classifies it into one of five `NifStatus` outcomes by testing CSS-style
  markers in a fixed priority order.  We embed the parsed HTML page as a
  first-order tree (`Dom`), the CSS selectors used by the code as boolean
  predicates on nodes, and the network phase as an explicit `FetchResult`
  input (transport error / HTTP status / body read outcome), since the
  network itself is outside the program.

* `is_nif_valid_local` — the pure mod-11 check-digit validator.  Rust
  operations that can panic (byte slicing at a non-boundary, `unwrap` of
  `to_digit`, `u32` subtraction underflow, out-of-range indexing) are
  embedded as `Option`-valued operations, so totality of the Rust function
  is the statement that the embedded computation never returns `none`.
  All arithmetic in the Rust function is on `u32` values bounded far below
  `2^32` (digit sums are at most 648), so `Nat` models it exactly.
-/

namespace CheckNif

/-- The five outcomes of a NIF query (the Rust enum `NifStatus`). -/
inductive NifStatus where
  | ValidKnown
  | ValidUnknown
  | Error
  | MultipleResults
  | Unknown
deriving Repr, DecidableEq

/-- A parsed HTML forest, as observed by the `scraper` queries the code makes:
an element node carries its class list, its optional `id` attribute and a
forest of children; `append`/`empty` encode sibling sequences.  Text nodes
carry their text. -/
inductive Dom where
  | empty
  | text (s : String)
  | elem (classes : List String) (idAttr : Option String) (children : Dom)
  | append (a b : Dom)
deriving Repr, DecidableEq

/-- A CSS class test on a single node: true when the node is an element and
its class list contains the class (class selectors in `scraper`). -/
def hasClass (c : String) : Dom → Bool
  | .elem cs _ _ => cs.contains c
  | _ => false

/-- Selector `.alert-message.error.block-message` (the error marker). -/
def errorSel (d : Dom) : Bool :=
  hasClass "alert-message" d && hasClass "error" d && hasClass "block-message" d

/-- Selector `.alert-message.success.block-message` (the success marker). -/
def successSel (d : Dom) : Bool :=
  hasClass "alert-message" d && hasClass "success" d && hasClass "block-message" d

/-- Selector `#search-results` (the results container). -/
def searchResultsSel : Dom → Bool
  | .elem _ (some i) _ => i == "search-results"
  | _ => false

/-- Selector `.search-title`. -/
def searchTitleSel (d : Dom) : Bool := hasClass "search-title" d

/-- Selector `.big-nif`. -/
def bigNifSel (d : Dom) : Bool := hasClass "big-nif" d

/-- All elements of the forest matching a selector, in document (pre-)order;
this is `document.select(&sel)` collected into a list. -/
def selectAll (p : Dom → Bool) : Dom → List Dom
  | .empty => []
  | .text _ => []
  | .elem cs i ch =>
      (if p (.elem cs i ch) then [Dom.elem cs i ch] else []) ++ selectAll p ch
  | .append a b => selectAll p a ++ selectAll p b

/-- The first match of a selector in a document: `document.select(&sel).next()`. -/
def firstMatch (p : Dom → Bool) (d : Dom) : Option Dom :=
  (selectAll p d).head?

/-- The concatenated text of a node's descendants, in document order:
`element.text().collect::<String>()`. -/
def innerText : Dom → String
  | .empty => ""
  | .text s => s
  | .elem _ _ ch => innerText ch
  | .append a b => innerText a ++ innerText b

/-- Matches of a selector among the descendants of an element (the element
itself excluded): `element.select(&sel)` in `scraper`. -/
def descSelect (p : Dom → Bool) : Dom → List Dom
  | .elem _ _ ch => selectAll p ch
  | _ => []

/-- Whether the character list starts with the pattern list. -/
def startsWithChars : List Char → List Char → Bool
  | _, [] => true
  | [], _ :: _ => false
  | c :: cs, p :: ps => c == p && startsWithChars cs ps

/-- Whether the pattern list occurs contiguously inside the character list. -/
def containsChars (pat : List Char) : List Char → Bool
  | [] => startsWithChars [] pat
  | c :: cs => startsWithChars (c :: cs) pat || containsChars pat cs

/-- Rust `str::contains(pat)`: substring occurrence. -/
def strContains (s pat : String) : Bool :=
  containsChars pat.data s.data

/-- The exact phrase tested inside the success marker. -/
def validUnknownPhrase : String :=
  "O NIF indicado é válido mas não conseguimos determinar a entidade associada."

/-- The success branch fires exactly when the first success-marker element
exists and its collected text contains `validUnknownPhrase`. -/
def successPhraseHit (doc : Dom) : Bool :=
  match firstMatch successSel doc with
  | some d => strContains (innerText d) validUnknownPhrase
  | none => false

/-- The multiple-results branch fires exactly when the first `#search-results`
element exists and has a `.search-title` descendant. -/
def multipleResultsHit (doc : Dom) : Bool :=
  match firstMatch searchResultsSel doc with
  | some sr => ((descSelect searchTitleSel sr).head?).isSome
  | none => false

/-- The known-entity branch fires exactly when a `.big-nif` element and a
`.search-title` element are both present anywhere in the document. -/
def knownEntityHit (doc : Dom) : Bool :=
  (firstMatch bigNifSel doc).isSome && (firstMatch searchTitleSel doc).isSome

/-- The classifier after the error and success branches have fallen through
(lines 78-99 of `main.rs`). -/
def classifyLate (doc : Dom) : NifStatus :=
  if multipleResultsHit doc then NifStatus.MultipleResults
  else if knownEntityHit doc then NifStatus.ValidKnown
  else NifStatus.Unknown

/-- The HTML classification phase of `check_nif_status` (lines 56-99 of
`main.rs`): the four markers tested in order, first match wins. -/
def classify (doc : Dom) : NifStatus :=
  if (firstMatch errorSel doc).isSome then NifStatus.Error
  else if successPhraseHit doc then NifStatus.ValidUnknown
  else classifyLate doc

/-- reqwest `StatusCode::is_success`: a 2xx status code. -/
def is_success (status : Nat) : Bool :=
  200 ≤ status && status ≤ 299

/-- The observable outcome of the network phase of `check_nif_status`:
either the GET itself failed, or a response arrived with a status code and
a body-read outcome (`Except.error` = body read failed, `Except.ok` = the
parsed document). -/
inductive FetchResult where
  | transportError
  | response (status : Nat) (body : Except Unit Dom)
deriving Repr

/-- `check_nif_status` (lines 24-100 of `main.rs`) as a function of the
fetch outcome: transport failure, non-success status and body-read failure
each return `Unknown`; otherwise the body is classified. -/
def check_nif_status : FetchResult → NifStatus
  | .transportError => NifStatus.Unknown
  | .response status body =>
      if !(is_success status) then NifStatus.Unknown
      else
        match body with
        | .error _ => NifStatus.Unknown
        | .ok doc => classify doc

/-- Rust `str::len`: the UTF-8 byte length of the string. -/
def rustLen (s : String) : Nat :=
  (s.data.map Char.utf8Size).sum

/-- Rust byte slicing `&s[0..k]` on the character list: `none` models the
panic when byte index `k` is out of range or not a character boundary. -/
def takeBytes : List Char → Nat → Option (List Char)
  | _, 0 => some []
  | [], _ + 1 => none
  | c :: cs, k + 1 =>
      if c.utf8Size ≤ k + 1 then
        (takeBytes cs (k + 1 - c.utf8Size)).map (fun l => c :: l)
      else none

/-- Rust `&s[0..k]` as a string. -/
def rustSlice (s : String) (k : Nat) : Option String :=
  (takeBytes s.data k).map String.mk

/-- Rust `char::to_digit(10)`: `some` of the digit value for ASCII digits,
`none` otherwise. -/
def charToDigit10 (c : Char) : Option Nat :=
  if c.isDigit then some (c.toNat - '0'.toNat) else none

/-- The digit-extraction loop `nif.chars().map(|c| c.to_digit(10).unwrap())`:
`none` models the `unwrap` panic on a non-digit. -/
def mapDigits : List Char → Option (List Nat)
  | [] => some []
  | c :: cs =>
      match charToDigit10 c, mapDigits cs with
      | some d, some ds => some (d :: ds)
      | _, _ => none

/-- The weighted-sum loop of `is_nif_valid_local`: the first 8 digits with
weights `9 - i` for index `i`. -/
def weightedSum (digits : List Nat) : Nat :=
  ((digits.take 8).enum.map (fun p => p.2 * (9 - p.1))).sum

/-- The `valid_first` test of `is_nif_valid_local`: the one-byte slice is
one of the allowed first digits, or the two-byte slice equals "45". -/
def validFirstOf (first first_two : String) : Bool :=
  (first == "1" || first == "2" || first == "3" || first == "5" ||
   first == "6" || first == "7" || first == "8" || first == "9") ||
  first_two == "45"

/-- `is_nif_valid_local` (lines 103-133 of `main.rs`) with every potentially
panicking Rust operation made explicit as an `Option`: byte slices, the
`to_digit` unwraps, the `u32` subtraction `11 - resto` (underflow guard) and
the index `digits[8]`.  `none` would mean a panic of the Rust function. -/
def is_nif_valid_local_checked (nif : String) : Option Bool :=
  if rustLen nif != 9 || !(nif.data.all Char.isDigit) then some false
  else
    match rustSlice nif 1, rustSlice nif 2 with
    | some first, some first_two =>
        if !(validFirstOf first first_two) then some false
        else
          match mapDigits nif.data with
          | some digits =>
              let resto := weightedSum digits % 11
              match (if resto == 0 || resto == 1 then some 0
                     else if resto ≤ 11 then some (11 - resto) else none),
                    digits[8]? with
              | some check_digit, some d8 => some (check_digit == d8)
              | _, _ => none
          | none => none
    | _, _ => none

/-- The boolean the Rust function returns (its panics never fire; see the
totality theorem below). -/
def is_nif_valid_local (nif : String) : Bool :=
  (is_nif_valid_local_checked nif).getD false

/-- Spec-side check digit, following the specification text: weighted sum of
the first 8 digits with weights 9 down to 2, remainder mod 11, expected
check digit 0 when the remainder is 0 or 1 and `11 - remainder` otherwise. -/
def specCheckDigit (ds : List Nat) : Nat :=
  let sum := ((ds.take 8).enum.map (fun p => p.2 * (9 - p.1))).sum
  let r := sum % 11
  if r = 0 ∨ r = 1 then 0 else 11 - r

/-- The numeric value of an ASCII digit character. -/
def charDigit (c : Char) : Nat :=
  c.toNat - '0'.toNat

/-- Spec-side allowed-prefix rule on the character list: first character in
{1,2,3,5,6,7,8,9}, or the first two characters are '4','5'. -/
def prefixOk : List Char → Bool
  | c0 :: c1 :: _ =>
      (c0 == '1' || c0 == '2' || c0 == '3' || c0 == '5' || c0 == '6' ||
       c0 == '7' || c0 == '8' || c0 == '9') || (c0 == '4' && c1 == '5')
  | _ => false

/-- A document holding both an error marker and a success marker. -/
def docBothMarkers : Dom :=
  Dom.append
    (Dom.elem ["alert-message", "error", "block-message"] none
      (Dom.text "O NIF indicado não é válido."))
    (Dom.elem ["alert-message", "success", "block-message"] none
      (Dom.text "ok"))

/-- The success-marker element whose text is exactly the tested phrase. -/
def successElem : Dom :=
  Dom.elem ["alert-message", "success", "block-message"] none
    (Dom.text validUnknownPhrase)

/-- A document whose only marker is a success marker containing the phrase. -/
def docSuccessPhrase : Dom :=
  Dom.elem [] none successElem

/-- A results container with one `.search-title` entry inside it. -/
def docSearchResults : Dom :=
  Dom.elem [] (some "search-results")
    (Dom.elem ["search-title"] none (Dom.text "Empresa Exemplo"))

/-- A document with a `.big-nif` element and a `.search-title` element as
siblings, not nested in any results container. -/
def docKnownEntity : Dom :=
  Dom.append
    (Dom.elem ["big-nif"] none (Dom.text "500960046"))
    (Dom.elem ["search-title"] none (Dom.text "Empresa Exemplo"))

end CheckNif

namespace CheckNif

/-- C1: whenever the error marker is present anywhere in the document, the
classifier returns `Error`, regardless of any other markers: the error test
is the first branch and short-circuits the rest. -/
theorem c1_error_priority (doc : Dom)
    (h : (firstMatch errorSel doc).isSome = true) :
    classify doc = NifStatus.Error := by
  simp [classify, h]

/-- C1 witness: a document containing both an error marker and a success
marker is classified `Error`. -/
theorem c1_witness : classify docBothMarkers = NifStatus.Error :=
  c1_error_priority docBothMarkers (by decide)

/-- C2: with no error marker and a first success-marker element `el`, the
classifier returns `ValidUnknown` when the element's text contains the
exact phrase, and otherwise falls through to the later checks
(`classifyLate`: multiple-results, then known-entity, then `Unknown`). -/
theorem c2_success_phrase_fallthrough (doc el : Dom)
    (herr : firstMatch errorSel doc = none)
    (hsucc : firstMatch successSel doc = some el) :
    (strContains (innerText el) validUnknownPhrase = true →
        classify doc = NifStatus.ValidUnknown) ∧
    (strContains (innerText el) validUnknownPhrase = false →
        classify doc = classifyLate doc) := by
  constructor <;> intro hph <;>
    simp [classify, successPhraseHit, herr, hsucc, hph]

/-- C2 witness: a document whose success marker contains the phrase is
classified `ValidUnknown`. -/
theorem c2_witness : classify docSuccessPhrase = NifStatus.ValidUnknown :=
  (c2_success_phrase_fallthrough docSuccessPhrase successElem
      (by decide) (by decide)).1 (by decide)

end CheckNif

namespace CheckNif

/-- C3: when the error and success-with-phrase branches fell through, a
`#search-results` container whose descendants include a `.search-title`
element makes the classifier return `MultipleResults`. -/
theorem c3_multiple_results (doc sr : Dom)
    (herr : firstMatch errorSel doc = none)
    (hsucc : successPhraseHit doc = false)
    (hsr : firstMatch searchResultsSel doc = some sr)
    (htitle : ((descSelect searchTitleSel sr).head?).isSome = true) :
    classify doc = NifStatus.MultipleResults := by
  simp [classify, classifyLate, multipleResultsHit, herr, hsucc, hsr, htitle]

/-- C3 witness: a results container with a `.search-title` entry is
classified `MultipleResults`. -/
theorem c3_witness : classify docSearchResults = NifStatus.MultipleResults :=
  c3_multiple_results docSearchResults docSearchResults
    (by decide) (by decide) (by decide) (by decide)

/-- C4: when the error, success-with-phrase and multiple-results branches
all fell through, the presence of a `.big-nif` element and a `.search-title`
element anywhere in the document makes the classifier return `ValidKnown`. -/
theorem c4_known_entity (doc : Dom)
    (herr : firstMatch errorSel doc = none)
    (hsucc : successPhraseHit doc = false)
    (hmr : multipleResultsHit doc = false)
    (hbig : (firstMatch bigNifSel doc).isSome = true)
    (htitle : (firstMatch searchTitleSel doc).isSome = true) :
    classify doc = NifStatus.ValidKnown := by
  simp [classify, classifyLate, knownEntityHit, herr, hsucc, hmr, hbig, htitle]

/-- C4 witness: a document with sibling `.big-nif` and `.search-title`
elements, not nested under any container, is classified `ValidKnown`. -/
theorem c4_witness : classify docKnownEntity = NifStatus.ValidKnown :=
  c4_known_entity docKnownEntity
    (by decide) (by decide) (by decide) (by decide) (by decide)

/-- The classification phase yields `Unknown` exactly when all four marker
tests fail. -/
lemma classify_eq_unknown_iff (doc : Dom) :
    classify doc = NifStatus.Unknown ↔
      ((firstMatch errorSel doc).isSome = false ∧ successPhraseHit doc = false ∧
       multipleResultsHit doc = false ∧ knownEntityHit doc = false) := by
  unfold classify classifyLate
  cases h1 : (firstMatch errorSel doc).isSome <;>
    cases h2 : successPhraseHit doc <;>
      cases h3 : multipleResultsHit doc <;>
        cases h4 : knownEntityHit doc <;> simp

/-- C5: `check_nif_status` returns `Unknown` in exactly four situations:
transport failure, a non-success HTTP status, a body-read failure, and a
body in which none of the four markers matches; none of them raises an
error (the function is total). -/
theorem c5_unknown_taxonomy (r : FetchResult) :
    check_nif_status r = NifStatus.Unknown ↔
      (r = FetchResult.transportError
       ∨ (∃ s b, r = FetchResult.response s b ∧ is_success s = false)
       ∨ (∃ s, r = FetchResult.response s (Except.error ()) ∧ is_success s = true)
       ∨ (∃ s doc, r = FetchResult.response s (Except.ok doc) ∧ is_success s = true ∧
            (firstMatch errorSel doc).isSome = false ∧ successPhraseHit doc = false ∧
            multipleResultsHit doc = false ∧ knownEntityHit doc = false)) := by
  cases r with
  | transportError => simp [check_nif_status]
  | response s b =>
      cases hs : is_success s with
      | false =>
          simp [check_nif_status, hs]
      | true =>
          cases b with
          | error u =>
              cases u
              simp [check_nif_status, hs]
          | ok doc =>
              simp [check_nif_status, hs, classify_eq_unknown_iff]
              constructor
              · rintro ⟨h1, h2, h3, h4⟩
                exact ⟨s, doc, ⟨rfl, rfl⟩, hs, h1, h2, h3, h4⟩
              · rintro ⟨s', doc', ⟨rfl, rfl⟩, _, h1, h2, h3, h4⟩
                exact ⟨h1, h2, h3, h4⟩

end CheckNif

namespace CheckNif

/-- The data of a literal-built string is its character list. -/
lemma data_mk (cs : List Char) : (String.mk cs).data = cs := rfl

/-- An ASCII digit character occupies one UTF-8 byte. -/
lemma utf8Size_of_digit (c : Char) (h : c.isDigit = true) : c.utf8Size = 1 := by
  simp only [Char.isDigit, Bool.and_eq_true, decide_eq_true_eq] at h
  have h127 : c.val ≤ 127 := by
    have h57 := h.2
    simp only [UInt32.le_def, BitVec.le_def] at h57 ⊢
    have e1 : (127 : UInt32).toBitVec.toNat = 127 := by decide
    have e2 : (57 : UInt32).toBitVec.toNat = 57 := by decide
    omega
  have hcast : UInt32.ofNatCore 127 Char.utf8Size.proof_1 = (127 : UInt32) := rfl
  unfold Char.utf8Size
  rw [hcast, if_pos h127]

/-- On all-ASCII-digit strings the UTF-8 byte length is the character count. -/
lemma sum_utf8Size_eq_length (cs : List Char) (h : ∀ c ∈ cs, c.isDigit = true) :
    (cs.map Char.utf8Size).sum = cs.length := by
  induction cs with
  | nil => rfl
  | cons c cs ih =>
      simp only [List.map_cons, List.sum_cons, List.length_cons]
      rw [utf8Size_of_digit c (h c (by simp)), ih (fun x hx => h x (by simp [hx]))]
      omega

/-- On all-digit strings the digit-extraction loop never panics and yields
the digit values. -/
lemma mapDigits_eq (cs : List Char) (h : ∀ c ∈ cs, c.isDigit = true) :
    mapDigits cs = some (cs.map charDigit) := by
  induction cs with
  | nil => rfl
  | cons c cs ih =>
      simp [mapDigits, charToDigit10, h c (by simp),
        ih (fun x hx => h x (by simp [hx])), charDigit]

/-- Equality test of one-character strings. -/
lemma strBeq_one (c d : Char) : (String.mk [c] == String.mk [d]) = (c == d) := by
  rw [Bool.eq_iff_iff]
  simp [beq_iff_eq, String.ext_iff]

/-- Equality test of two-character strings. -/
lemma strBeq_two (c0 c1 d0 d1 : Char) :
    (String.mk [c0, c1] == String.mk [d0, d1]) = (c0 == d0 && c1 == d1) := by
  rw [Bool.eq_iff_iff]
  simp [beq_iff_eq, String.ext_iff]

/-- The code's `valid_first` test on the two byte slices agrees with the
character-level allowed-prefix rule. -/
lemma validFirstOf_eq (c0 c1 : Char) (rest : List Char) :
    validFirstOf (String.mk [c0]) (String.mk [c0, c1]) = prefixOk (c0 :: c1 :: rest) := by
  unfold validFirstOf prefixOk
  rw [show ("1" : String) = String.mk ['1'] from rfl,
      show ("2" : String) = String.mk ['2'] from rfl,
      show ("3" : String) = String.mk ['3'] from rfl,
      show ("5" : String) = String.mk ['5'] from rfl,
      show ("6" : String) = String.mk ['6'] from rfl,
      show ("7" : String) = String.mk ['7'] from rfl,
      show ("8" : String) = String.mk ['8'] from rfl,
      show ("9" : String) = String.mk ['9'] from rfl,
      show ("45" : String) = String.mk ['4', '5'] from rfl,
      strBeq_one, strBeq_one, strBeq_one, strBeq_one, strBeq_one, strBeq_one,
      strBeq_one, strBeq_one, strBeq_two]

end CheckNif

namespace CheckNif

/-- On a 9-character all-digit string the checked validator never panics and
computes: prefix rule, then comparison of the algorithm's check digit with
the ninth digit. -/
lemma checked_eq_of_digits (cs : List Char) (h9 : cs.length = 9)
    (hd : cs.all Char.isDigit = true) :
    is_nif_valid_local_checked (String.mk cs) =
      some (prefixOk cs &&
        (specCheckDigit (cs.map charDigit) == (cs.map charDigit).getD 8 0)) := by
  have hd' : ∀ c ∈ cs, c.isDigit = true := by simpa [List.all_eq_true] using hd
  obtain ⟨c0, cs1, rfl⟩ : ∃ c0 cs1, cs = c0 :: cs1 := by
    cases cs with
    | nil => simp at h9
    | cons a l => exact ⟨a, l, rfl⟩
  obtain ⟨c1, rest, rfl⟩ : ∃ c1 rest, cs1 = c1 :: rest := by
    cases cs1 with
    | nil => simp at h9
    | cons a l => exact ⟨a, l, rfl⟩
  have hc0 : c0.utf8Size = 1 := utf8Size_of_digit _ (hd' c0 (by simp))
  have hc1 : c1.utf8Size = 1 := utf8Size_of_digit _ (hd' c1 (by simp))
  have hlen : rustLen (String.mk (c0 :: c1 :: rest)) = 9 := by
    have := sum_utf8Size_eq_length (c0 :: c1 :: rest) hd'
    simpa [rustLen, h9] using this
  have ht1 : rustSlice (String.mk (c0 :: c1 :: rest)) 1 = some (String.mk [c0]) := by
    simp [rustSlice, takeBytes, hc0, data_mk]
  have ht2 : rustSlice (String.mk (c0 :: c1 :: rest)) 2 = some (String.mk [c0, c1]) := by
    simp [rustSlice, takeBytes, hc0, hc1, data_mk]
  have hmd := mapDigits_eq (c0 :: c1 :: rest) hd'
  have hds : (List.map charDigit (c0 :: c1 :: rest)).length = 9 := by
    simpa [List.length_map] using h9
  have hlt : 8 < (List.map charDigit (c0 :: c1 :: rest)).length := by omega
  have h8 : (List.map charDigit (c0 :: c1 :: rest))[8]? =
      some ((List.map charDigit (c0 :: c1 :: rest)).getD 8 0) := by
    rw [List.getElem?_eq_getElem hlt]
    rw [List.getD_eq_getElem?_getD, List.getElem?_eq_getElem hlt]
    rfl
  unfold is_nif_valid_local_checked
  rw [data_mk, hd, hlen]
  simp only [bne_self_eq_false, Bool.not_true, Bool.or_self, Bool.false_eq_true, if_false]
  simp only [ht1, ht2]
  rw [validFirstOf_eq c0 c1 rest]
  cases hpre : prefixOk (c0 :: c1 :: rest) with
  | false => simp
  | true =>
      simp only [Bool.not_true, Bool.false_eq_true, if_false]
      simp only [hmd]
      simp only [h8]
      have hfold : specCheckDigit (List.map charDigit (c0 :: c1 :: rest)) =
          (if weightedSum (List.map charDigit (c0 :: c1 :: rest)) % 11 = 0 ∨
              weightedSum (List.map charDigit (c0 :: c1 :: rest)) % 11 = 1 then 0
           else 11 - weightedSum (List.map charDigit (c0 :: c1 :: rest)) % 11) := rfl
      rw [hfold]
      set R := weightedSum (List.map charDigit (c0 :: c1 :: rest)) % 11 with hR
      have hmod : R ≤ 11 := le_of_lt (Nat.mod_lt _ (by norm_num))
      by_cases hr : R = 0 ∨ R = 1
      · rcases hr with hr | hr <;> rw [hr] <;> simp
      · have h0 : R ≠ 0 := fun h => hr (Or.inl h)
        have h1 : R ≠ 1 := fun h => hr (Or.inr h)
        simp [h0, h1, hr, hmod]

end CheckNif

namespace CheckNif

/-- C6: on every input of exactly 9 ASCII decimal digits passing the
allowed-prefix rule, the validator returns true exactly when the check
digit computed by the documented algorithm (weighted sum of the first 8
digits with weights 9 down to 2, mod 11, 0 for remainder 0 or 1 and
`11 - remainder` otherwise) equals the ninth digit. -/
theorem c6_checksum_iff (cs : List Char)
    (h9 : cs.length = 9)
    (hd : cs.all Char.isDigit = true)
    (hpre : prefixOk cs = true) :
    is_nif_valid_local (String.mk cs) = true ↔
      specCheckDigit (cs.map charDigit) = (cs.map charDigit).getD 8 0 := by
  unfold is_nif_valid_local
  rw [checked_eq_of_digits cs h9 hd, hpre]
  simp [beq_iff_eq]

/-- C6 witness: the real NIF 500960046 satisfies the check-digit equation
and the validator accepts it. -/
theorem c6_witness :
    is_nif_valid_local (String.mk ['5','0','0','9','6','0','0','4','6']) = true :=
  (c6_checksum_iff ['5','0','0','9','6','0','0','4','6']
      (by decide) (by decide) (by decide)).mpr (by decide)

/-- C7: the validator returns false for every string that is not exactly
9 ASCII-digit characters, and for every 9-digit string whose first digit is
outside {1,2,3,5,6,7,8,9} and whose first two digits are not "45". -/
theorem c7_rejections (s : String) :
    (¬(s.data.length = 9 ∧ s.data.all Char.isDigit = true) →
        is_nif_valid_local s = false) ∧
    (s.data.length = 9 → s.data.all Char.isDigit = true → prefixOk s.data = false →
        is_nif_valid_local s = false) := by
  obtain ⟨cs⟩ := s
  constructor
  · intro hno
    by_cases hall : cs.all Char.isDigit = true
    · have hlen : cs.length ≠ 9 := by
        intro h
        exact hno ⟨by simpa [data_mk] using h, by simpa [data_mk] using hall⟩
      have hr : rustLen (String.mk cs) = cs.length := by
        have := sum_utf8Size_eq_length cs (by simpa [List.all_eq_true] using hall)
        simpa [rustLen, data_mk] using this
      unfold is_nif_valid_local is_nif_valid_local_checked
      rw [data_mk, hr]
      simp [hlen]
    · have hall' : cs.all Char.isDigit = false := by simpa using hall
      unfold is_nif_valid_local is_nif_valid_local_checked
      rw [data_mk]
      simp [hall']
  · intro h9 hall hpre
    have h9' : cs.length = 9 := by simpa [data_mk] using h9
    have hall' : cs.all Char.isDigit = true := by simpa [data_mk] using hall
    have hpre' : prefixOk cs = false := by simpa [data_mk] using hpre
    unfold is_nif_valid_local
    rw [checked_eq_of_digits cs h9' hall', hpre']
    simp

/-- C7 witness: an 8-character digit string is rejected, and a 9-digit
string starting with 0 (prefix rule violated) is rejected. -/
theorem c7_witness :
    is_nif_valid_local (String.mk ['1','2','3','4','5','6','7','8']) = false ∧
    is_nif_valid_local (String.mk ['0','1','2','3','4','5','6','7','8']) = false :=
  ⟨(c7_rejections (String.mk ['1','2','3','4','5','6','7','8'])).1 (by decide),
   (c7_rejections (String.mk ['0','1','2','3','4','5','6','7','8'])).2
      (by decide) (by decide) (by decide)⟩

/-- C8 counterexample: the claim asserts the validator rejects "123456789",
but it accepts it: the claim's worked sum 165 is a miscalculation. -/
theorem c8_counterexample : ¬ (is_nif_valid_local "123456789" = false) := by decide

/-- C8 amended: is_nif_valid_local "123456789" returns true: the weighted
sum is 1*9+2*8+3*7+4*6+5*5+6*4+7*3+8*2 = 156 (not 165), 156 mod 11 = 2, the
expected check digit is 11 - 2 = 9, which equals the last digit. -/
theorem c8_accepts : is_nif_valid_local "123456789" = true := by decide

/-- C9: the validator is deterministic: two calls on equal inputs return
the same boolean (the embedding is a pure function, with no effects). -/
theorem c9_deterministic (s t : String) (h : s = t) :
    is_nif_valid_local s = is_nif_valid_local t := by rw [h]

/-- C9 witness: repeated evaluation on "500960046" agrees. -/
theorem c9_witness :
    is_nif_valid_local "500960046" = is_nif_valid_local "500960046" :=
  c9_deterministic "500960046" "500960046" rfl

/-- C10: the validator is total: the checked embedding, in which every
panicking Rust operation (byte slices at non-boundaries, to_digit unwrap,
the subtraction 11 - resto, the index digits[8]) yields none, in fact never
returns none on any input string. -/
theorem c10_no_panic (s : String) : (is_nif_valid_local_checked s).isSome = true := by
  obtain ⟨cs⟩ := s
  by_cases hall : cs.all Char.isDigit = true
  · by_cases h9 : cs.length = 9
    · rw [checked_eq_of_digits cs h9 hall]
      rfl
    · have hr : rustLen (String.mk cs) = cs.length := by
        have := sum_utf8Size_eq_length cs (by simpa [List.all_eq_true] using hall)
        simpa [rustLen, data_mk] using this
      unfold is_nif_valid_local_checked
      rw [data_mk, hr]
      simp [h9]
  · have hall' : cs.all Char.isDigit = false := by simpa using hall
    unfold is_nif_valid_local_checked
    rw [data_mk]
    simp [hall']

end CheckNif
